import Mathlib

/-!
Verification of the boltz_mcp repository's asynchronous job orchestration
subsystem and its prediction scripts.

The MCP tool surface lives in src/server.py; the prediction scripts in
scripts/structure_prediction.py and scripts/affinity_prediction.py.  The
job manager (jobs/manager.py) is imported by server.py but its source is
not part of the enumerated repository files, so the registry operations
are modelled from the specification where noted.
-/

namespace BoltzMcp

/-! ## Job status state machine -/

/-- Job lifecycle states, as listed in the data model: pending, running,
completed, failed, cancelled. -/
inductive Status where
  | pending
  | running
  | completed
  | failed
  | cancelled
deriving DecidableEq, Repr

/-- A status is terminal when it is completed, failed or cancelled. -/
def Status.isTerminal : Status → Bool
  | .completed => true
  | .failed => true
  | .cancelled => true
  | _ => false

/-- Modelled from the spec: jobs/manager.py is not among the enumerated
source files, so the registry state machine is taken from the
specification.  Allowed transitions: pending to running, pending to
cancelled, running to completed, running to failed, running to
cancelled; no transition leaves a terminal state. -/
def canStep : Status → Status → Bool
  | .pending, .running => true
  | .pending, .cancelled => true
  | .running, .completed => true
  | .running, .failed => true
  | .running, .cancelled => true
  | _, _ => false

/-- One polling observation step: a poller either sees the same status
again or sees the result of one allowed transition. -/
def obsStep (a b : Status) : Bool := a == b || canStep a b

/-- Position of a status along the lifecycle: pending before running
before any terminal state. -/
def Status.rank : Status → Nat
  | .pending => 0
  | .running => 1
  | _ => 2

/-- A list of statuses is a valid observation trace when every adjacent
pair is related by obsStep. -/
def validObsTraceB : List Status → Bool
  | [] => true
  | [_] => true
  | a :: b :: rest => obsStep a b && validObsTraceB (b :: rest)

/-- The ordering invariant carried along a trace: rank never decreases,
and a terminal status is never followed by anything else. -/
def obsOk (a b : Status) : Prop :=
  a.rank ≤ b.rank ∧ (a.isTerminal = true → b = a)

/-! ## Job registry (modelled from the spec) -/

/-- Modelled from the spec: jobs/manager.py is not among the enumerated
source files.  A job record holds the status, the stored result payload
(absent until completed), the stored error (set only on failed or
cancelled), and the captured log lines. -/
structure JobRecord where
  status : Status
  result : Option String
  error : Option String
  log : List String
deriving DecidableEq, Repr

/-- The in-memory registry: an association list from job id to record. -/
def Registry := List (String × JobRecord)

/-- Look up a job record by id. -/
def findJob (reg : Registry) (id : String) : Option JobRecord :=
  (List.find? (fun p => p.1 == id) reg).map Prod.snd

/-- Replace the record stored under an id, leaving other entries alone. -/
def setJob (reg : Registry) (id : String) (r : JobRecord) : Registry :=
  List.map (fun p => if p.1 == id then (p.1, r) else p) reg

/-- Outcome of a cancel call: either the id was unknown, or the status
the record holds after the call. -/
inductive CancelOutcome where
  | notFound
  | status (s : Status)
deriving DecidableEq, Repr

/-- Modelled from the spec: jobs/manager.py's cancel_job.  Unknown id
fails with NotFound; a record already in a terminal state is left
unchanged and its existing terminal status is reported; a pending or
running record is marked cancelled. -/
def cancelJob (reg : Registry) (id : String) : CancelOutcome × Registry :=
  match findJob reg id with
  | none => (.notFound, reg)
  | some r =>
    if r.status.isTerminal then (.status r.status, reg)
    else (.status .cancelled,
      setJob reg id { r with status := .cancelled, error := some "Job cancelled" })

/-- Outcome of a result query: unknown id, not yet terminal, or the
payload the call returns (the stored result on success, the stored error
payload on failure or cancellation). -/
inductive ResultOutcome where
  | notFound
  | notReady
  | ok (result : Option String) (error : Option String)
deriving DecidableEq, Repr

/-- Modelled from the spec: jobs/manager.py's get_job_result.  Unknown id
fails with NotFound; a pending or running job fails with NotReady; a
completed job returns the stored result; a failed or cancelled job
returns the stored error payload as the call's result, not a failure of
the call itself. -/
def getJobResult (reg : Registry) (id : String) : ResultOutcome :=
  match findJob reg id with
  | none => .notFound
  | some r =>
    match r.status with
    | .pending => .notReady
    | .running => .notReady
    | .completed => .ok r.result none
    | .failed => .ok none r.error
    | .cancelled => .ok none r.error

/-- Outcome of a log query: unknown id, or the returned lines together
with the total line count. -/
inductive LogOutcome where
  | notFound
  | lines (ls : List String) (total : Nat)
deriving DecidableEq, Repr

/-- Modelled from the spec: the log sink's tail operation. n = 0 returns
all lines; n > 0 returns at most the last n lines currently recorded. -/
def tailLines (n : Nat) (log : List String) : List String :=
  if n = 0 then log else log.drop (log.length - n)

/-- Modelled from the spec: jobs/manager.py's get_job_log.  Unknown id
fails with NotFound; otherwise the tail of the job's log is returned
together with the total number of recorded lines. -/
def getJobLog (reg : Registry) (id : String) (n : Nat) : LogOutcome :=
  match findJob reg id with
  | none => .notFound
  | some r => .lines (tailLines n r.log) r.log.length

/-! ## Submit tools (src/server.py) -/

/-- An argument value in the args mapping handed to submit_job: either a
string value or a boolean-true flag (server.py only ever stores strings
or the value True). -/
inductive ArgValue where
  | str (s : String)
  | flag
deriving DecidableEq, Repr

/-- Python truthiness for an optional string: None and the empty string
are falsy. -/
def truthy : Option String → Bool
  | none => false
  | some s => !(s == "")

/-- Python x or d for an optional string x and default d. -/
def orDefault (o : Option String) (d : String) : String :=
  match o with
  | none => d
  | some s => if s == "" then d else s

/-- Result of a submit tool: a synchronous error dict, or a call to
job_manager.submit_job with the script path, args mapping and job name. -/
inductive SubmitResult where
  | error (msg : String)
  | submitted (scriptPath : String) (args : List (String × ArgValue)) (jobName : String)
deriving DecidableEq, Repr

/-- Path of the structure prediction script (str(SCRIPTS_DIR / ...)). -/
def structureScriptPath : String := "scripts/structure_prediction.py"

/-- Path of the affinity prediction script (str(SCRIPTS_DIR / ...)). -/
def affinityScriptPath : String := "scripts/affinity_prediction.py"

/-- The argument entries server.py appends after the input source in both
submit tools: output dir when truthy, no-msa-server when use_msa_server
is false, use-potentials when requested (server.py lines 237-245 and
303-311). -/
def addCommonArgs (args : List (String × ArgValue)) (output_dir : Option String)
    (use_msa_server use_potentials : Bool) : List (String × ArgValue) :=
  let a1 := if truthy output_dir then
      args ++ [("output", ArgValue.str (orDefault output_dir ""))] else args
  let a2 := if use_msa_server then a1 else a1 ++ [("no-msa-server", ArgValue.flag)]
  if use_potentials then a2 ++ [("use-potentials", ArgValue.flag)] else a2

/-- submit_structure_prediction (server.py lines 192-251): builds the
args mapping starting from the output_format entry, adds the input
source (input_file preferred over sequence), errors synchronously when
neither is given, then submits to the job manager. -/
def submit_structure_prediction (input_file sequence output_dir : Option String)
    (use_msa_server use_potentials : Bool) (output_format : String)
    (job_name : Option String) : SubmitResult :=
  let base := [("output_format", ArgValue.str output_format)]
  if truthy input_file then
    .submitted structureScriptPath
      (addCommonArgs (base ++ [("input", ArgValue.str (orDefault input_file ""))])
        output_dir use_msa_server use_potentials)
      (orDefault job_name "structure_prediction")
  else if truthy sequence then
    .submitted structureScriptPath
      (addCommonArgs (base ++ [("sequence", ArgValue.str (orDefault sequence ""))])
        output_dir use_msa_server use_potentials)
      (orDefault job_name "structure_prediction")
  else
    .error "Must provide either input_file or sequence"

/-- submit_affinity_prediction (server.py lines 253-317): builds the args
mapping starting from the output_format entry, adds the input source
(input_file, or protein-seq plus a ligand), errors synchronously when
neither combination is given, then submits to the job manager. -/
def submit_affinity_prediction (input_file protein_sequence ligand_smiles
    ligand_ccd output_dir : Option String)
    (use_msa_server use_potentials : Bool) (output_format : String)
    (job_name : Option String) : SubmitResult :=
  let base := [("output_format", ArgValue.str output_format)]
  if truthy input_file then
    .submitted affinityScriptPath
      (addCommonArgs (base ++ [("input", ArgValue.str (orDefault input_file ""))])
        output_dir use_msa_server use_potentials)
      (orDefault job_name "affinity_prediction")
  else if truthy protein_sequence && (truthy ligand_smiles || truthy ligand_ccd) then
    .submitted affinityScriptPath
      (addCommonArgs
        ((base ++ [("protein-seq", ArgValue.str (orDefault protein_sequence ""))]) ++
          (if truthy ligand_smiles then
            [("ligand-smiles", ArgValue.str (orDefault ligand_smiles ""))] else []) ++
          (if truthy ligand_ccd then
            [("ligand-ccd", ArgValue.str (orDefault ligand_ccd ""))] else []))
        output_dir use_msa_server use_potentials)
      (orDefault job_name "affinity_prediction")
  else
    .error "Must provide either input_file OR (protein_sequence + ligand)"

/-- Modelled from the spec: jobs/manager.py's submit_job flattening of
the args mapping into a command line. A boolean-true entry becomes a
bare --key flag; every other entry becomes a --key value pair. -/
def flattenArgs : List (String × ArgValue) → List String
  | [] => []
  | (k, ArgValue.flag) :: rest => ("--" ++ k) :: flattenArgs rest
  | (k, ArgValue.str v) :: rest => ("--" ++ k) :: v :: flattenArgs rest

/-- The option tokens the flattening emits: one --key per args entry. -/
def optionTokensOf (args : List (String × ArgValue)) : List String :=
  args.map (fun p => "--" ++ p.1)

/-- Option strings registered by structure_prediction.py's argparse
parser (main, lines 269-293), plus the automatic help options. -/
def structureParserOptionStrings : List String :=
  ["--input", "-i", "--sequence", "-s", "--output", "-o", "--config", "-c",
   "--no-msa-server", "--use-potentials", "--output-format", "--help", "-h"]

/-- Option strings registered by affinity_prediction.py's argparse parser
(main, lines 357-388), plus the automatic help options. -/
def affinityParserOptionStrings : List String :=
  ["--input", "-i", "--protein-seq", "--ligand-smiles", "--ligand-ccd",
   "--output", "-o", "--config", "-c", "--no-msa-server", "--use-potentials",
   "--output-format", "--help", "-h"]

/-- String prefix test on the underlying character lists. -/
def strIsPrefixOf (p s : String) : Bool := List.isPrefixOf p.toList s.toList

/-- Whether an argparse parser with the given option strings accepts a
command-line option token: an exact match, or an unambiguous
abbreviation of a single long option (argparse allow_abbrev). -/
def acceptsOption (options : List String) (t : String) : Bool :=
  options.contains t ||
    (strIsPrefixOf "--" t &&
      (options.filter
        (fun o => strIsPrefixOf "--" o && strIsPrefixOf t o)).length == 1)

/-! ## Prediction scripts (scripts/structure_prediction.py and
scripts/affinity_prediction.py) -/

/-- Outcome of one external boltz process: its exit code and captured
standard output and standard error. -/
structure ProcessOutcome where
  exitCode : Nat
  stdout : String
  stderr : String
deriving DecidableEq, Repr

/-- The boltz command line both scripts build (structure_prediction.py
lines 90-100, affinity_prediction.py lines 111-121). -/
def boltzCmd (input_yaml output_dir : String)
    (use_msa_server use_potentials : Bool) (output_format : String) :
    List String :=
  ["boltz", "predict", input_yaml, "--out_dir", output_dir,
      "--output_format", output_format] ++
    (if use_msa_server then ["--use_msa_server"] else []) ++
    (if use_potentials then ["--use_potentials"] else [])

/-- The dict run_boltz_command returns: success flag, stdout (absent on
failure), stderr, error (absent on success), and the joined command. -/
structure CommandResult where
  success : Bool
  stdout : Option String
  stderr : String
  error : Option String
  command : String
deriving DecidableEq, Repr

/-- str(e) for the subprocess.CalledProcessError raised on a nonzero
exit: a message naming the command and the exit status. -/
def calledProcessErrorMsg (cmd : List String) (code : Nat) : String :=
  "Command " ++ toString cmd ++ " returned non-zero exit status " ++
    toString code ++ "."

/-- run_boltz_command (structure_prediction.py lines 75-116): exit code 0
yields the success dict carrying stdout; a nonzero exit raises
CalledProcessError, caught and turned into the failure dict carrying
str(e) and the captured stderr. -/
def run_boltz_command (input_yaml output_dir : String)
    (use_msa_server use_potentials : Bool) (output_format : String)
    (proc : ProcessOutcome) : CommandResult :=
  let cmd := boltzCmd input_yaml output_dir use_msa_server use_potentials
    output_format
  let cmdStr := String.intercalate " " cmd
  if proc.exitCode = 0 then
    { success := true, stdout := some proc.stdout, stderr := proc.stderr,
      error := none, command := cmdStr }
  else
    { success := false, stdout := none, stderr := proc.stderr,
      error := some (calledProcessErrorMsg cmd proc.exitCode),
      command := cmdStr }

/-- run_boltz_affinity_command (affinity_prediction.py lines 96-137):
the same exit-code handling as run_boltz_command. -/
def run_boltz_affinity_command (input_yaml output_dir : String)
    (use_msa_server use_potentials : Bool) (output_format : String)
    (proc : ProcessOutcome) : CommandResult :=
  let cmd := boltzCmd input_yaml output_dir use_msa_server use_potentials
    output_format
  let cmdStr := String.intercalate " " cmd
  if proc.exitCode = 0 then
    { success := true, stdout := some proc.stdout, stderr := proc.stderr,
      error := none, command := cmdStr }
  else
    { success := false, stdout := none, stderr := proc.stderr,
      error := some (calledProcessErrorMsg cmd proc.exitCode),
      command := cmdStr }

/-- Exceptions the main prediction functions raise on bad input. -/
inductive PyError where
  | valueError (msg : String)
  | fileNotFound (msg : String)
deriving DecidableEq, Repr

/-- The result sub-dict run_structure_prediction assembles (lines
243-258); filesystem-derived fields (output_files, metadata) are outside
this embedding. -/
structure StructurePayload where
  command_output : String
  command_used : String
  sequence_length : Option Nat
  input_source : String
deriving DecidableEq, Repr

/-- The record run_structure_prediction returns on a terminal run:
success flag, the always-present result payload, the output directory,
and the error and stderr keys that are added only on failure. -/
structure StructureRunResult where
  success : Bool
  result : StructurePayload
  output_dir : String
  error : Option String
  stderr : Option String
deriving DecidableEq, Repr

/-- The result-record assembly of run_structure_prediction (the Prepare
result block, lines 242-262): the result sub-dict is always present; the
error and stderr keys are added exactly when the prediction did not
succeed. -/
def prepareStructureResult (pr : CommandResult) (sequence : Option String)
    (outDir : String) : StructureRunResult :=
  { success := pr.success
    result :=
      { command_output := pr.stdout.getD ""
        command_used := pr.command
        sequence_length := if truthy sequence then
          some (orDefault sequence "").length else none
        input_source := if truthy sequence then "sequence" else "file" }
    output_dir := outDir
    error := if pr.success then none
      else some (pr.error.getD "Unknown error")
    stderr := if pr.success then none else some pr.stderr }

/-- run_structure_prediction (structure_prediction.py lines 152-264):
validates the input combination, resolves the input YAML (an existing
file, or a temp YAML written from the sequence), runs the boltz command,
and assembles the result record.  The process outcome and file-existence
check stand in for the external environment. -/
def run_structure_prediction (input_file sequence output_dir : Option String)
    (use_msa_server use_potentials : Bool) (output_format : String)
    (fileExists : String → Bool) (proc : ProcessOutcome) :
    Except PyError StructureRunResult :=
  if !truthy input_file && !truthy sequence then
    .error (.valueError "Must provide either input_file or sequence")
  else if truthy input_file && truthy sequence then
    .error (.valueError "Provide either input_file OR sequence, not both")
  else
    let outDir := orDefault output_dir "./boltz_structure_output"
    if truthy input_file && !fileExists (orDefault input_file "") then
      .error (.fileNotFound ("Input file not found: " ++ orDefault input_file ""))
    else
      let inputYaml := if truthy input_file then orDefault input_file ""
        else outDir ++ "/temp_input.yaml"
      .ok (prepareStructureResult
        (run_boltz_command inputYaml outDir use_msa_server use_potentials
          output_format proc)
        sequence outDir)

/-- The result sub-dict run_affinity_prediction assembles (lines
326-346); filesystem-derived fields (affinity_values, output_files,
metadata) are outside this embedding. -/
structure AffinityPayload where
  command_output : String
  command_used : String
  protein_length : Option Nat
  ligand_input : Option String
  ligand_type : Option String
  input_source : String
deriving DecidableEq, Repr

/-- The record run_affinity_prediction returns on a terminal run. -/
structure AffinityRunResult where
  success : Bool
  result : AffinityPayload
  output_dir : String
  error : Option String
  stderr : Option String
deriving DecidableEq, Repr

/-- The result-record assembly of run_affinity_prediction (the Prepare
result block, lines 325-351). -/
def prepareAffinityResult (pr : CommandResult) (protein_sequence
    ligand_smiles ligand_ccd : Option String) (outDir : String) :
    AffinityRunResult :=
  { success := pr.success
    result :=
      { command_output := pr.stdout.getD ""
        command_used := pr.command
        protein_length := if truthy protein_sequence then
          some (orDefault protein_sequence "").length else none
        ligand_input := if truthy ligand_smiles then ligand_smiles
          else ligand_ccd
        ligand_type := if truthy ligand_smiles then some "smiles"
          else if truthy ligand_ccd then some "ccd" else none
        input_source := if truthy protein_sequence then "sequence+ligand"
          else "file" }
    output_dir := outDir
    error := if pr.success then none
      else some (pr.error.getD "Unknown error")
    stderr := if pr.success then none else some pr.stderr }

/-- run_affinity_prediction (affinity_prediction.py lines 223-352): the
same shape as run_structure_prediction with the affinity input
validation, ligand handling and temp YAML name. -/
def run_affinity_prediction (input_file protein_sequence ligand_smiles
    ligand_ccd output_dir : Option String)
    (use_msa_server use_potentials : Bool) (output_format : String)
    (fileExists : String → Bool) (proc : ProcessOutcome) :
    Except PyError AffinityRunResult :=
  if truthy input_file &&
      (truthy protein_sequence || truthy ligand_smiles || truthy ligand_ccd) then
    .error (.valueError
      "Provide either input_file OR (protein_sequence + ligand), not both")
  else if !truthy input_file && !truthy protein_sequence then
    .error (.valueError "Must provide protein_sequence when not using input_file")
  else if !truthy input_file && !truthy ligand_smiles && !truthy ligand_ccd then
    .error (.valueError
      "Must provide either ligand_smiles or ligand_ccd when not using input_file")
  else
    let outDir := orDefault output_dir "./boltz_affinity_output"
    if truthy input_file && !fileExists (orDefault input_file "") then
      .error (.fileNotFound ("Input file not found: " ++ orDefault input_file ""))
    else
      let inputYaml := if truthy input_file then orDefault input_file ""
        else outDir ++ "/temp_affinity.yaml"
      .ok (prepareAffinityResult
        (run_boltz_affinity_command inputYaml outDir use_msa_server
          use_potentials output_format proc)
        protein_sequence ligand_smiles ligand_ccd outDir)

/-- Result dict of the synchronous MCP tools: the success dict spreading
the run result, or the error dict built from the caught exception. -/
inductive ToolResult where
  | success (r : StructureRunResult)
  | error (msg : String)
deriving DecidableEq, Repr

/-- simple_structure_prediction (server.py lines 98-138): calls
run_structure_prediction and converts a raised FileNotFoundError or
ValueError into a synchronous error dict. -/
def simple_structure_prediction (input_file sequence output_dir : Option String)
    (use_msa_server : Bool) (output_format : String)
    (fileExists : String → Bool) (proc : ProcessOutcome) : ToolResult :=
  match run_structure_prediction input_file sequence output_dir use_msa_server
    false output_format fileExists proc with
  | .ok r => .success r
  | .error (.fileNotFound m) => .error ("File not found: " ++ m)
  | .error (.valueError m) => .error ("Invalid input: " ++ m)

/-! ## validate_protein_sequence (server.py lines 379-423) -/

/-- Whitespace characters removed by the regex substitution. -/
def pyIsSpace (c : Char) : Bool :=
  c == ' ' || c == '\t' || c == '\n' || c == '\r' || c == '\x0b' || c == '\x0c'

/-- The cleaned sequence: the input uppercased, with whitespace removed
(re.sub applied to sequence.upper()). -/
def cleanSeq (s : String) : List Char :=
  (s.toList.map Char.toUpper).filter (fun c => !pyIsSpace c)

/-- The twenty standard amino-acid letters accepted by the validator. -/
def validAA : List Char :=
  ['A', 'C', 'D', 'E', 'F', 'G', 'H', 'I', 'K', 'L',
   'M', 'N', 'P', 'Q', 'R', 'S', 'T', 'V', 'W', 'Y']

/-- Round half to even at integer precision, as Python's round does on
exactly representable values. -/
def roundHalfEven (q : ℚ) : ℤ :=
  let f := Rat.floor q
  let frac := q - (f : ℚ)
  if frac < 1 / 2 then f
  else if 1 / 2 < frac then f + 1
  else if f % 2 = 0 then f else f + 1

/-- Python round(x, 2) on an exact rational value. -/
def pyRound2 (q : ℚ) : ℚ := (roundHalfEven (q * 100) : ℚ) / 100

/-- One composition entry: the amino acid, its count in the cleaned
sequence, and its percentage of the cleaned length. -/
structure CompositionEntry where
  aa : Char
  count : Nat
  percentage : ℚ
deriving DecidableEq, Repr

/-- The dict validate_protein_sequence returns (status and the clean
sequence echo aside). -/
structure ValidationResult where
  sequence_length : Nat
  valid : Bool
  clean_sequence : List Char
  invalid_characters : List Char
  composition : List CompositionEntry
deriving DecidableEq, Repr

/-- validate_protein_sequence (server.py lines 379-423): cleans the
input, reports validity as absence of characters outside the twenty
amino-acid letters, and records a composition entry with count and
percentage for every amino acid occurring at least once.  The source
iterates the composition over an unordered set of the valid letters;
the entries are modelled in the fixed order of validAA. -/
def validate_protein_sequence (s : String) : ValidationResult :=
  let clean := cleanSeq s
  let invalid := (clean.filter (fun c => !validAA.contains c)).dedup
  { sequence_length := clean.length
    valid := invalid.isEmpty
    clean_sequence := clean
    invalid_characters := invalid
    composition :=
      (validAA.filter (fun aa => 0 < clean.count aa)).map
        (fun aa => ⟨aa, clean.count aa,
          pyRound2 ((clean.count aa : ℚ) / (clean.length : ℚ) * 100)⟩) }

lemma obsStep_obsOk {a b : Status} (h : obsStep a b = true) : obsOk a b := by
  cases a <;> cases b <;>
    simp_all [obsStep, canStep, obsOk, Status.rank, Status.isTerminal]

lemma obsOk_refl (a : Status) : obsOk a a := ⟨le_refl _, fun _ => rfl⟩

lemma obsOk_trans {a b c : Status} (hab : obsOk a b) (hbc : obsOk b c) :
    obsOk a c := by
  refine ⟨le_trans hab.1 hbc.1, fun ht => ?_⟩
  have hba := hab.2 ht
  subst hba
  exact hbc.2 ht

lemma validObsTraceB_tail {a : Status} {tr : List Status}
    (h : validObsTraceB (a :: tr) = true) : validObsTraceB tr = true := by
  cases tr with
  | nil => rfl
  | cons b rest =>
    simp only [validObsTraceB, Bool.and_eq_true] at h
    exact h.2

lemma validObsTraceB_head {a b : Status} {tr : List Status}
    (h : validObsTraceB (a :: b :: tr) = true) : obsStep a b = true := by
  simp only [validObsTraceB, Bool.and_eq_true] at h
  exact h.1

lemma obsOk_head (tr : List Status) : ∀ (a : Status),
    validObsTraceB (a :: tr) = true → ∀ (j : Nat) (hj : j < tr.length),
    obsOk a (tr.get ⟨j, hj⟩) := by
  induction tr with
  | nil =>
    intro a _ j hj
    simp at hj
  | cons b rest ih =>
    intro a hv j hj
    have h1 : obsStep a b = true := validObsTraceB_head hv
    have h2 : validObsTraceB (b :: rest) = true := validObsTraceB_tail hv
    cases j with
    | zero => simpa using obsStep_obsOk h1
    | succ j' =>
      have hj' : j' < rest.length := by simpa using hj
      have := ih b h2 j' hj'
      exact obsOk_trans (obsStep_obsOk h1) (by simpa using this)

lemma obsOk_get (tr : List Status) : validObsTraceB tr = true →
    ∀ (i j : Nat) (hij : i ≤ j) (hj : j < tr.length),
    obsOk (tr.get ⟨i, lt_of_le_of_lt hij hj⟩) (tr.get ⟨j, hj⟩) := by
  induction tr with
  | nil =>
    intro _ i j _ hj
    simp at hj
  | cons a rest ih =>
    intro hv i j hij hj
    cases i with
    | zero =>
      cases j with
      | zero => exact obsOk_refl _
      | succ j' =>
        have hj' : j' < rest.length := by simpa using hj
        simpa using obsOk_head rest a hv j' hj'
    | succ i' =>
      cases j with
      | zero => omega
      | succ j' =>
        have hj' : j' < rest.length := by simpa using hj
        have := ih (validObsTraceB_tail hv) i' j' (by omega) hj'
        simpa using this

/-- C1: for every job, the statuses over its lifetime follow the state
machine pending to running to a terminal state (with pending to
cancelled also allowed); no transition leaves a terminal state, and
along every valid observation trace the rank is monotone and a record
never re-enters pending or running after a terminal state. -/
theorem job_status_lifecycle :
    (∀ s t : Status, s.isTerminal = true → canStep s t = false) ∧
    (∀ (tr : List Status), validObsTraceB tr = true →
      ∀ (i j : Nat) (hij : i ≤ j) (hj : j < tr.length),
        (tr.get ⟨i, lt_of_le_of_lt hij hj⟩).rank ≤ (tr.get ⟨j, hj⟩).rank ∧
        ((tr.get ⟨i, lt_of_le_of_lt hij hj⟩).isTerminal = true →
          tr.get ⟨j, hj⟩ = tr.get ⟨i, lt_of_le_of_lt hij hj⟩)) := by
  constructor
  · intro s t hs
    cases s <;> cases t <;> simp_all [Status.isTerminal, canStep]
  · intro tr hv i j hij hj
    exact obsOk_get tr hv i j hij hj

/-- C1 witness: the concrete trace pending, running, completed is a valid
observation trace, and the theorem applies to its endpoints. -/
theorem job_status_lifecycle_witness :
    validObsTraceB [Status.pending, Status.running, Status.completed] = true ∧
    (([Status.pending, Status.running, Status.completed].get
        ⟨0, by decide⟩).rank ≤
      ([Status.pending, Status.running, Status.completed].get
        ⟨2, by decide⟩).rank) :=
  ⟨by decide,
    (job_status_lifecycle.2 [Status.pending, Status.running, Status.completed]
      (by decide) 0 2 (by decide) (by decide)).1⟩

/-- C3: cancelJob is idempotent: on a record already in a terminal state
it returns the existing terminal status rather than an error, leaves the
registry unchanged, and a second call returns the same terminal status. -/
theorem cancelJob_idempotent (reg : Registry) (id : String) (r : JobRecord)
    (hfind : findJob reg id = some r) (hterm : r.status.isTerminal = true) :
    cancelJob reg id = (.status r.status, reg) ∧
    cancelJob (cancelJob reg id).2 id = (.status r.status, reg) := by
  have h1 : cancelJob reg id = (.status r.status, reg) := by
    simp [cancelJob, hfind, hterm]
  exact ⟨h1, by rw [h1]; simp [cancelJob, hfind, hterm]⟩

/-- C3 witness: cancelling an already-completed job twice reports
completed both times and never touches the registry. -/
theorem cancelJob_idempotent_witness :
    findJob [("job-1", ⟨Status.completed, some "ok", none, []⟩)] "job-1" =
      some ⟨Status.completed, some "ok", none, []⟩ ∧
    (JobRecord.status ⟨Status.completed, some "ok", none, []⟩).isTerminal = true ∧
    cancelJob [("job-1", ⟨Status.completed, some "ok", none, []⟩)] "job-1" =
      (.status Status.completed, [("job-1", ⟨Status.completed, some "ok", none, []⟩)]) :=
  ⟨by decide, by decide,
    (cancelJob_idempotent [("job-1", ⟨Status.completed, some "ok", none, []⟩)]
      "job-1" ⟨Status.completed, some "ok", none, []⟩ (by decide) (by decide)).1⟩

/-- C4: getJobResult fails with NotFound on an id that was never issued,
fails with NotReady while the job is pending or running, and on a failed
or cancelled job returns the stored error payload as the call's result
rather than failing the call. -/
theorem getJobResult_spec (reg : Registry) (id : String) :
    (findJob reg id = none → getJobResult reg id = .notFound) ∧
    (∀ r, findJob reg id = some r →
      (r.status = .pending ∨ r.status = .running) →
      getJobResult reg id = .notReady) ∧
    (∀ r, findJob reg id = some r →
      (r.status = .failed ∨ r.status = .cancelled) →
      getJobResult reg id = .ok none r.error) := by
  refine ⟨fun h => by simp [getJobResult, h], fun r hr hs => ?_, fun r hr hs => ?_⟩
  · rcases hs with h | h <;> simp [getJobResult, hr, h]
  · rcases hs with h | h <;> simp [getJobResult, hr, h]

/-- C4 witness: on a registry with one failed job, the query for an
unknown id reports NotFound and the query for the failed job returns its
stored error payload. -/
theorem getJobResult_spec_witness :
    getJobResult [("job-2", ⟨Status.failed, none, some "boom", []⟩)] "nope" =
      .notFound ∧
    getJobResult [("job-2", ⟨Status.failed, none, some "boom", []⟩)] "job-2" =
      .ok none (some "boom") :=
  ⟨(getJobResult_spec [("job-2", ⟨Status.failed, none, some "boom", []⟩)]
      "nope").1 (by decide),
    (getJobResult_spec [("job-2", ⟨Status.failed, none, some "boom", []⟩)]
        "job-2").2.2 ⟨Status.failed, none, some "boom", []⟩ (by decide)
      (Or.inl rfl)⟩

/-- C5: for every job and every n > 0, getJobLog returns at most n lines
and those lines are a suffix of the full log returned with n = 0; a tail
query on a job with no output returns an empty sequence, not an error. -/
theorem getJobLog_tail_spec (reg : Registry) (id : String) (r : JobRecord)
    (n : Nat) (hfind : findJob reg id = some r) (hn : 0 < n) :
    (tailLines n r.log).length ≤ n ∧
    (tailLines n r.log) <:+ (tailLines 0 r.log) ∧
    getJobLog reg id n = .lines (tailLines n r.log) r.log.length ∧
    (r.log = [] → getJobLog reg id n = .lines [] 0) := by
  have hne : n ≠ 0 := Nat.pos_iff_ne_zero.mp hn
  refine ⟨?_, ?_, by simp [getJobLog, hfind], fun hlog => ?_⟩
  · simp only [tailLines, if_neg hne]
    rw [List.length_drop]
    omega
  · simp only [tailLines, if_neg hne, if_pos rfl]
    exact List.drop_suffix _ _
  · simp [getJobLog, hfind, hlog, tailLines]

/-- C5 witness: tailing the last 2 lines of a 3-line log returns the last
2 lines, a suffix of the full log; the empty-log clause holds vacuously
on this record. -/
theorem getJobLog_tail_spec_witness :
    findJob [("job-3", ⟨Status.running, none, none, ["a", "b", "c"]⟩)] "job-3" =
      some ⟨Status.running, none, none, ["a", "b", "c"]⟩ ∧
    (0 < 2 ∧
      (tailLines 2 ["a", "b", "c"]).length ≤ 2 ∧
      (tailLines 2 ["a", "b", "c"]) <:+ (tailLines 0 ["a", "b", "c"])) :=
  ⟨by decide, by decide,
    (getJobLog_tail_spec [("job-3", ⟨Status.running, none, none, ["a", "b", "c"]⟩)]
        "job-3" ⟨Status.running, none, none, ["a", "b", "c"]⟩ 2
        (by decide) (by decide)).1,
    (getJobLog_tail_spec [("job-3", ⟨Status.running, none, none, ["a", "b", "c"]⟩)]
        "job-3" ⟨Status.running, none, none, ["a", "b", "c"]⟩ 2
        (by decide) (by decide)).2.1⟩

/-- C2 evidence: submitting by sequence with the default output format
builds the args mapping with key output_format, whose flattening emits
the flag --output_format, but neither script's argparse parser accepts
that token (both register --output-format, with a hyphen), so the
spawned script rejects its own command line. -/
theorem submit_output_format_flag_rejected :
    submit_structure_prediction none (some "MVLS") none true false "pdb" none =
      .submitted structureScriptPath
        [("output_format", ArgValue.str "pdb"), ("sequence", ArgValue.str "MVLS")]
        "structure_prediction" ∧
    flattenArgs
        [("output_format", ArgValue.str "pdb"), ("sequence", ArgValue.str "MVLS")] =
      ["--output_format", "pdb", "--sequence", "MVLS"] ∧
    "--output_format" ∈ optionTokensOf
        [("output_format", ArgValue.str "pdb"), ("sequence", ArgValue.str "MVLS")] ∧
    acceptsOption structureParserOptionStrings "--output_format" = false ∧
    acceptsOption affinityParserOptionStrings "--output_format" = false ∧
    acceptsOption structureParserOptionStrings "--output-format" = true ∧
    acceptsOption structureParserOptionStrings "--sequence" = true := by
  refine ⟨rfl, rfl, ?_, by decide, by decide, by decide, by decide⟩
  simp [optionTokensOf]

/-- C6: a malformed submission is rejected synchronously with an error
result and no job is created: submit_structure_prediction with neither
input_file nor sequence, and submit_affinity_prediction with neither
input_file nor a protein sequence plus a ligand, both return the error
dict instead of a submit_job call. -/
theorem submit_malformed_rejected_synchronously
    (input_file sequence protein_sequence ligand_smiles ligand_ccd
      output_dir : Option String)
    (use_msa_server use_potentials : Bool) (output_format : String)
    (job_name : Option String)
    (h1 : truthy input_file = false) (h2 : truthy sequence = false)
    (h3 : truthy protein_sequence = false ∨
      (truthy ligand_smiles = false ∧ truthy ligand_ccd = false)) :
    submit_structure_prediction input_file sequence output_dir
        use_msa_server use_potentials output_format job_name =
      .error "Must provide either input_file or sequence" ∧
    submit_affinity_prediction input_file protein_sequence ligand_smiles
        ligand_ccd output_dir use_msa_server use_potentials output_format
        job_name =
      .error "Must provide either input_file OR (protein_sequence + ligand)" := by
  constructor
  · simp [submit_structure_prediction, h1, h2]
  · rcases h3 with h3 | ⟨h3a, h3b⟩
    · simp [submit_affinity_prediction, h1, h3]
    · simp [submit_affinity_prediction, h1, h3a, h3b]

/-- C6 witness: the all-absent submission is rejected by both tools. -/
theorem submit_malformed_rejected_synchronously_witness :
    truthy none = false ∧
    (submit_structure_prediction none none none true false "pdb" none =
        .error "Must provide either input_file or sequence" ∧
      submit_affinity_prediction none none none none none true false "pdb" none =
        .error "Must provide either input_file OR (protein_sequence + ligand)") :=
  ⟨rfl,
    submit_malformed_rejected_synchronously none none none none none none
      true false "pdb" none rfl rfl (Or.inl rfl)⟩

/-- C7: for every external process invocation, exit code 0 is marked
successful with the captured stdout as the result, and a nonzero exit is
marked failed with the exit information as the error together with the
captured stderr; both run_boltz_command and run_boltz_affinity_command
behave this way. -/
theorem boltz_command_exit_code_spec (input_yaml output_dir : String)
    (use_msa_server use_potentials : Bool) (output_format : String)
    (proc : ProcessOutcome) :
    (proc.exitCode = 0 →
      (run_boltz_command input_yaml output_dir use_msa_server use_potentials
          output_format proc).success = true ∧
      (run_boltz_command input_yaml output_dir use_msa_server use_potentials
          output_format proc).stdout = some proc.stdout ∧
      (run_boltz_affinity_command input_yaml output_dir use_msa_server
          use_potentials output_format proc).success = true ∧
      (run_boltz_affinity_command input_yaml output_dir use_msa_server
          use_potentials output_format proc).stdout = some proc.stdout) ∧
    (proc.exitCode ≠ 0 →
      (run_boltz_command input_yaml output_dir use_msa_server use_potentials
          output_format proc).success = false ∧
      (run_boltz_command input_yaml output_dir use_msa_server use_potentials
          output_format proc).error =
        some (calledProcessErrorMsg
          (boltzCmd input_yaml output_dir use_msa_server use_potentials
            output_format) proc.exitCode) ∧
      (run_boltz_command input_yaml output_dir use_msa_server use_potentials
          output_format proc).stderr = proc.stderr ∧
      (run_boltz_affinity_command input_yaml output_dir use_msa_server
          use_potentials output_format proc).success = false ∧
      (run_boltz_affinity_command input_yaml output_dir use_msa_server
          use_potentials output_format proc).error =
        some (calledProcessErrorMsg
          (boltzCmd input_yaml output_dir use_msa_server use_potentials
            output_format) proc.exitCode) ∧
      (run_boltz_affinity_command input_yaml output_dir use_msa_server
          use_potentials output_format proc).stderr = proc.stderr) := by
  constructor
  · intro h
    simp [run_boltz_command, run_boltz_affinity_command, h]
  · intro h
    simp [run_boltz_command, run_boltz_affinity_command, h]

/-- C7 witness: a process exiting 0 with stdout done is marked
successful, and a process exiting 1 is marked failed. -/
theorem boltz_command_exit_code_spec_witness :
    ((⟨0, "done", ""⟩ : ProcessOutcome).exitCode = 0 ∧
      (run_boltz_command "in.yaml" "out" true false "pdb"
          ⟨0, "done", ""⟩).success = true) ∧
    ((⟨1, "", "boom"⟩ : ProcessOutcome).exitCode ≠ 0 ∧
      (run_boltz_command "in.yaml" "out" true false "pdb"
          ⟨1, "", "boom"⟩).success = false) :=
  ⟨⟨rfl,
      ((boltz_command_exit_code_spec "in.yaml" "out" true false "pdb"
        ⟨0, "done", ""⟩).1 rfl).1⟩,
    ⟨by decide,
      ((boltz_command_exit_code_spec "in.yaml" "out" true false "pdb"
        ⟨1, "", "boom"⟩).2 (by decide)).1⟩⟩

lemma run_structure_ok_shape {input_file sequence output_dir : Option String}
    {msa pot : Bool} {fmt : String} {fe : String → Bool}
    {proc : ProcessOutcome} {rec : StructureRunResult}
    (h : run_structure_prediction input_file sequence output_dir msa pot fmt
      fe proc = .ok rec) :
    ∃ iy od, rec =
      prepareStructureResult (run_boltz_command iy od msa pot fmt proc)
        sequence od := by
  simp only [run_structure_prediction] at h
  split at h
  · simp at h
  split at h
  · simp at h
  split at h
  · simp at h
  exact ⟨_, _, (Except.ok.inj h).symm⟩

lemma run_affinity_ok_shape {input_file protein_sequence ligand_smiles
    ligand_ccd output_dir : Option String}
    {msa pot : Bool} {fmt : String} {fe : String → Bool}
    {proc : ProcessOutcome} {rec : AffinityRunResult}
    (h : run_affinity_prediction input_file protein_sequence ligand_smiles
      ligand_ccd output_dir msa pot fmt fe proc = .ok rec) :
    ∃ iy od, rec =
      prepareAffinityResult (run_boltz_affinity_command iy od msa pot fmt proc)
        protein_sequence ligand_smiles ligand_ccd od := by
  simp only [run_affinity_prediction] at h
  split at h
  · simp at h
  split at h
  · simp at h
  split at h
  · simp at h
  split at h
  · simp at h
  exact ⟨_, _, (Except.ok.inj h).symm⟩

/-- C8: every terminal run carries either a result or an error, never
neither: when a run returns a record with success true the result
payload carries the captured stdout and no error is set, and when
success is false the error field is set and stderr carries the captured
stderr; this holds for both run_structure_prediction and
run_affinity_prediction. -/
theorem terminal_run_carries_result_or_error
    (input_file sequence protein_sequence ligand_smiles ligand_ccd
      output_dir : Option String)
    (use_msa_server use_potentials : Bool) (output_format : String)
    (fileExists : String → Bool) (proc : ProcessOutcome)
    (recS : StructureRunResult) (recA : AffinityRunResult)
    (hS : run_structure_prediction input_file sequence output_dir
      use_msa_server use_potentials output_format fileExists proc = .ok recS)
    (hA : run_affinity_prediction input_file protein_sequence ligand_smiles
      ligand_ccd output_dir use_msa_server use_potentials output_format
      fileExists proc = .ok recA) :
    (recS.success = true →
      recS.error = none ∧ recS.result.command_output = proc.stdout) ∧
    (recS.success = false →
      recS.error.isSome = true ∧ recS.stderr = some proc.stderr) ∧
    (recA.success = true →
      recA.error = none ∧ recA.result.command_output = proc.stdout) ∧
    (recA.success = false →
      recA.error.isSome = true ∧ recA.stderr = some proc.stderr) := by
  obtain ⟨iy1, od1, hrec1⟩ := run_structure_ok_shape hS
  obtain ⟨iy2, od2, hrec2⟩ := run_affinity_ok_shape hA
  subst hrec1 hrec2
  by_cases hz : proc.exitCode = 0 <;>
    simp [run_boltz_command, run_boltz_affinity_command,
      prepareStructureResult, prepareAffinityResult, hz]

/-- C8 witness: a sequence-based structure run and a sequence-plus-ligand
affinity run with an exit-0 process both return ok records, and the
structure record's success clause yields the captured stdout with no
error. -/
theorem terminal_run_carries_result_or_error_witness :
    run_structure_prediction none (some "MVL") none true false "pdb"
        (fun _ => false) ⟨0, "out", ""⟩ =
      .ok (prepareStructureResult
        (run_boltz_command "./boltz_structure_output/temp_input.yaml"
          "./boltz_structure_output" true false "pdb" ⟨0, "out", ""⟩)
        (some "MVL") "./boltz_structure_output") ∧
    run_affinity_prediction none (some "MVL") (some "CCO") none none true
        false "pdb" (fun _ => false) ⟨0, "out", ""⟩ =
      .ok (prepareAffinityResult
        (run_boltz_affinity_command "./boltz_affinity_output/temp_affinity.yaml"
          "./boltz_affinity_output" true false "pdb" ⟨0, "out", ""⟩)
        (some "MVL") (some "CCO") none "./boltz_affinity_output") ∧
    ((prepareStructureResult
        (run_boltz_command "./boltz_structure_output/temp_input.yaml"
          "./boltz_structure_output" true false "pdb" ⟨0, "out", ""⟩)
        (some "MVL") "./boltz_structure_output").success = true →
      (prepareStructureResult
        (run_boltz_command "./boltz_structure_output/temp_input.yaml"
          "./boltz_structure_output" true false "pdb" ⟨0, "out", ""⟩)
        (some "MVL") "./boltz_structure_output").error = none ∧
      (prepareStructureResult
        (run_boltz_command "./boltz_structure_output/temp_input.yaml"
          "./boltz_structure_output" true false "pdb" ⟨0, "out", ""⟩)
        (some "MVL") "./boltz_structure_output").result.command_output =
        "out") :=
  ⟨rfl, rfl,
    (terminal_run_carries_result_or_error none (some "MVL") (some "MVL")
      (some "CCO") none none true false "pdb" (fun _ => false)
      ⟨0, "out", ""⟩ _ _ rfl rfl).1⟩

lemma addCommonArgs_split (l : List (String × ArgValue)) (od : Option String)
    (msa pot : Bool) :
    ∃ extra, addCommonArgs l od msa pot = l ++ extra ∧
      ∀ q ∈ extra,
        q.1 = "output" ∨ q.1 = "no-msa-server" ∨ q.1 = "use-potentials" := by
  simp only [addCommonArgs]
  split <;> split <;> split
  · exact ⟨[("output", ArgValue.str (orDefault od "")),
      ("use-potentials", ArgValue.flag)], by simp,
      by intro q hq
         simp only [List.mem_cons, List.not_mem_nil, or_false] at hq
         rcases hq with rfl | rfl <;> simp⟩
  · exact ⟨[("use-potentials", ArgValue.flag)], by simp,
      by intro q hq
         simp only [List.mem_cons, List.not_mem_nil, or_false] at hq
         subst hq; simp⟩
  · exact ⟨[("output", ArgValue.str (orDefault od "")),
      ("no-msa-server", ArgValue.flag), ("use-potentials", ArgValue.flag)],
      by simp,
      by intro q hq
         simp only [List.mem_cons, List.not_mem_nil, or_false] at hq
         rcases hq with rfl | rfl | rfl <;> simp⟩
  · exact ⟨[("no-msa-server", ArgValue.flag),
      ("use-potentials", ArgValue.flag)], by simp,
      by intro q hq
         simp only [List.mem_cons, List.not_mem_nil, or_false] at hq
         rcases hq with rfl | rfl <;> simp⟩
  · exact ⟨[("output", ArgValue.str (orDefault od ""))], by simp,
      by intro q hq
         simp only [List.mem_cons, List.not_mem_nil, or_false] at hq
         subst hq; simp⟩
  · exact ⟨[], by simp, by simp⟩
  · exact ⟨[("output", ArgValue.str (orDefault od "")),
      ("no-msa-server", ArgValue.flag)], by simp,
      by intro q hq
         simp only [List.mem_cons, List.not_mem_nil, or_false] at hq
         rcases hq with rfl | rfl <;> simp⟩
  · exact ⟨[("no-msa-server", ArgValue.flag)], by simp,
      by intro q hq
         simp only [List.mem_cons, List.not_mem_nil, or_false] at hq
         subst hq; simp⟩

lemma mem_addCommonArgs {p : String × ArgValue} {l : List (String × ArgValue)}
    {od : Option String} {msa pot : Bool} (h : p ∈ l) :
    p ∈ addCommonArgs l od msa pot := by
  obtain ⟨extra, heq, -⟩ := addCommonArgs_split l od msa pot
  rw [heq]
  exact List.mem_append.mpr (Or.inl h)

lemma addCommonArgs_key_cases {p : String × ArgValue}
    {l : List (String × ArgValue)} {od : Option String} {msa pot : Bool}
    (h : p ∈ addCommonArgs l od msa pot) :
    p ∈ l ∨ p.1 = "output" ∨ p.1 = "no-msa-server" ∨ p.1 = "use-potentials" := by
  obtain ⟨extra, heq, hextra⟩ := addCommonArgs_split l od msa pot
  rw [heq] at h
  rcases List.mem_append.mp h with h | h
  · exact Or.inl h
  · exact Or.inr (hextra p h)

/-- C9: with both input_file and sequence supplied, the asynchronous path
submits a job whose args carry the input entry and no sequence entry,
silently ignoring sequence, while the synchronous path raises ValueError
and starts nothing, which simple_structure_prediction reports as an
Invalid input error dict. -/
theorem both_inputs_async_ignores_sequence_sync_rejects
    (input_file sequence output_dir : Option String)
    (use_msa_server use_potentials : Bool) (output_format : String)
    (job_name : Option String) (fileExists : String → Bool)
    (proc : ProcessOutcome)
    (h1 : truthy input_file = true) (h2 : truthy sequence = true) :
    submit_structure_prediction input_file sequence output_dir use_msa_server
        use_potentials output_format job_name =
      .submitted structureScriptPath
        (addCommonArgs
          [("output_format", ArgValue.str output_format),
            ("input", ArgValue.str (orDefault input_file ""))]
          output_dir use_msa_server use_potentials)
        (orDefault job_name "structure_prediction") ∧
    ("input", ArgValue.str (orDefault input_file "")) ∈
      addCommonArgs
        [("output_format", ArgValue.str output_format),
          ("input", ArgValue.str (orDefault input_file ""))]
        output_dir use_msa_server use_potentials ∧
    (∀ v, ("sequence", v) ∉
      addCommonArgs
        [("output_format", ArgValue.str output_format),
          ("input", ArgValue.str (orDefault input_file ""))]
        output_dir use_msa_server use_potentials) ∧
    run_structure_prediction input_file sequence output_dir use_msa_server
        use_potentials output_format fileExists proc =
      .error (.valueError "Provide either input_file OR sequence, not both") ∧
    simple_structure_prediction input_file sequence output_dir use_msa_server
        output_format fileExists proc =
      .error "Invalid input: Provide either input_file OR sequence, not both" := by
  refine ⟨?_, ?_, ?_, ?_, ?_⟩
  · simp [submit_structure_prediction, h1]
  · exact mem_addCommonArgs (by simp)
  · intro v hv
    rcases addCommonArgs_key_cases hv with h | h | h | h <;> simp_all
  · simp [run_structure_prediction, h1, h2]
  · simp [simple_structure_prediction, run_structure_prediction, h1, h2]

/-- C9 witness: with input_file in.yaml and sequence MVL both supplied,
the submit tool submits using the input file while the synchronous path
rejects the combination. -/
theorem both_inputs_async_ignores_sequence_sync_rejects_witness :
    truthy (some "in.yaml") = true ∧ truthy (some "MVL") = true ∧
    (simple_structure_prediction (some "in.yaml") (some "MVL") none true "pdb"
        (fun _ => true) ⟨0, "", ""⟩ =
      .error "Invalid input: Provide either input_file OR sequence, not both") :=
  ⟨rfl, rfl,
    (both_inputs_async_ignores_sequence_sync_rejects (some "in.yaml")
      (some "MVL") none true false "pdb" none (fun _ => true)
      ⟨0, "", ""⟩ rfl rfl).2.2.2.2⟩

/-- C10: validity holds exactly when every character of the uppercased,
whitespace-stripped sequence is one of the twenty amino-acid letters; an
input whose cleaned form is empty is valid with length 0 and empty
composition; and every composition entry carries the count of its amino
acid and that count over the cleaned length times 100, rounded to two
decimals. -/
theorem validate_protein_sequence_spec (s : String) :
    ((validate_protein_sequence s).valid = true ↔
      ∀ c ∈ cleanSeq s, c ∈ validAA) ∧
    (cleanSeq s = [] →
      (validate_protein_sequence s).valid = true ∧
      (validate_protein_sequence s).sequence_length = 0 ∧
      (validate_protein_sequence s).composition = []) ∧
    (∀ e ∈ (validate_protein_sequence s).composition,
      0 < e.count ∧ e.count = (cleanSeq s).count e.aa ∧ e.aa ∈ validAA ∧
      e.percentage =
        pyRound2 ((e.count : ℚ) / (((cleanSeq s).length : ℚ)) * 100)) := by
  refine ⟨?_, fun h => ?_, fun e he => ?_⟩
  · simp [validate_protein_sequence, List.isEmpty_iff, List.dedup_eq_nil,
      List.filter_eq_nil_iff]
  · simp [validate_protein_sequence, h]
  · simp only [validate_protein_sequence, List.mem_map, List.mem_filter] at he
    obtain ⟨aa, ⟨haa, hcnt⟩, rfl⟩ := he
    exact ⟨by simpa using hcnt, rfl, haa, rfl⟩

/-- C10 witness: a single-space input cleans to the empty sequence and is
reported valid with length 0 and no composition entries. -/
theorem validate_protein_sequence_spec_witness :
    cleanSeq " " = [] ∧
    ((validate_protein_sequence " ").valid = true ∧
      (validate_protein_sequence " ").sequence_length = 0 ∧
      (validate_protein_sequence " ").composition = []) :=
  ⟨by decide, (validate_protein_sequence_spec " ").2.1 (by decide)⟩

end BoltzMcp

